import Mathlib

/-!
Shallow embedding of the IDO pool program
(src/programs/ido-program/programs/ido-program/src/lib.rs).

Balances and supplies are `u64` in the source; wide intermediates in the
redemption arithmetic are `u128`.  Both are embedded as `Nat` with explicit
range hypotheses and explicit `% 2^64` where the source casts.

Each instruction handler is embedded as a function from the trusted clock
value `now`, the pool record and the balances it touches, to
`Except ProgramError` of the updated balances.  The Solana runtime applies a
transaction atomically, so an `error` result means every balance is left
unchanged.  A Rust panic (an `unwrap` of `None`) aborts the transaction
without producing any error code from the program's own enum; it is
modelled as an outer `Option` layer whose `none` is the panic.

The fungible-token ledger (SPL token) is an external collaborator; its
`transfer`, `mint_to` and `burn` primitives are modelled from the
collaborator contract in the spec (transfer and burn fail exactly when the
source balance is below the amount; the pool signer holds the minting
authority, so minting succeeds).
-/

namespace IdoProgram

/-- Modulus of the 64-bit unsigned machine integers holding balances. -/
def U64_MOD : Nat := 2 ^ 64

/-- Modulus of the 128-bit unsigned intermediates in the redemption math. -/
def U128_MOD : Nat := 2 ^ 128

/-- The program's error enum (lib.rs lines 341-357). -/
inductive ErrorCode where
  | NonSequentialTimestamps
  | InvalidParameter
  | IdoFuture
  | WrongInvestingTime
  | LowDepositToken
  | IdoNotOver
  | CannotWithdrawYet
deriving DecidableEq, Repr

/-- Failure of a token-ledger primitive: the source balance is below the
requested amount (the only failure mode in the collaborator contract). -/
inductive TokenError where
  | InsufficientFunds
deriving DecidableEq, Repr

/-- An instruction either fails with one of the program's own error codes or
with an error bubbled up from the token ledger via the `?` operator. -/
inductive ProgramError where
  | code (e : ErrorCode)
  | token (e : TokenError)
deriving DecidableEq, Repr

/-- Ledger collaborator: transfer of an amount between two balances.
Fails exactly when the source balance is below the amount; otherwise
returns the updated (source, destination) pair. -/
def spl_transfer (source dest amount : Nat) : Except TokenError (Nat × Nat) :=
  if source < amount then .error .InsufficientFunds
  else .ok (source - amount, dest + amount)

/-- Ledger collaborator: mint into a balance.  The pool signer holds the
minting authority for the redeemable mint, so minting succeeds and raises
the total supply and the destination balance together. -/
def spl_mint_to (supply dest amount : Nat) : Nat × Nat :=
  (supply + amount, dest + amount)

/-- Ledger collaborator: burn from a balance.  Fails exactly when the
balance is below the amount; otherwise lowers the total supply and the
balance together. -/
def spl_burn (supply source amount : Nat) : Except TokenError (Nat × Nat) :=
  if source < amount then .error .InsufficientFunds
  else .ok (supply - amount, source - amount)

/-- Rust checked multiplication on `u128`: yields `none` exactly when the
product overflows past `2^128`. -/
def checked_mul_u128 (a b : Nat) : Option Nat :=
  if a * b < U128_MOD then some (a * b) else none

/-- Rust checked division on `u128`: yields `none` exactly on a zero
divisor, otherwise the floor quotient. -/
def checked_div_u128 (a b : Nat) : Option Nat :=
  if b = 0 then none else some (a / b)

/-- Account identifiers (Solana public keys); only their identity matters
to the embedded logic, so they are plain naturals. -/
abbrev Pubkey := Nat

/-- The persistent pool record (lib.rs lines 285-319). -/
structure PoolAccount where
  pool_authority : Pubkey
  redeemable_mint : Pubkey
  native_mint : Pubkey
  deposit_token_mint : Pubkey
  pool_native : Pubkey
  pool_deposit_token : Pubkey
  total_native_tokens : Nat
  start_ido_ts : Int
  end_ido_ts : Int
  withdraw_deposit_token_ts : Int
  bump : Nat
deriving DecidableEq, Repr

/-- Access-control gate of the pool-creation instruction (lib.rs lines
362-367): requires the clock to be before the IDO start. -/
def pre_ido_phase (now start_ido_ts : Int) : Except ErrorCode Unit :=
  if ¬ (now < start_ido_ts) then .error .IdoFuture else .ok ()

/-- Access-control gate of the deposit-exchange instruction (lib.rs lines
370-379): requires the clock to be strictly inside the IDO window. -/
def unrestricted_phase (now : Int) (pool : PoolAccount) : Except ErrorCode Unit :=
  if ¬ (pool.start_ido_ts < now ∧ pool.end_ido_ts > now) then
    .error .WrongInvestingTime
  else .ok ()

/-- Access-control gate of the redemption instruction (lib.rs lines
382-387): requires the clock to be strictly after the IDO end. -/
def ido_over (now : Int) (pool : PoolAccount) : Except ErrorCode Unit :=
  if ¬ (pool.end_ido_ts < now) then .error .IdoNotOver else .ok ()

/-- Access-control gate of the withdrawal instruction (lib.rs lines
390-395): requires the clock to be strictly after the withdrawal time. -/
def can_withdraw_deposit_token (now : Int) (pool : PoolAccount) :
    Except ErrorCode Unit :=
  if ¬ (pool.withdraw_deposit_token_ts < now) then .error .CannotWithdrawYet
  else .ok ()

/-- Balances read and written by the pool-creation instruction: the
creator's native-token balance and the pool's native vault. -/
structure InitState where
  creator_native : Nat
  pool_native : Nat
deriving DecidableEq, Repr

/-- Embeds the pool-creation handler `initialize_pool` (lib.rs lines
10-54): the `pre_ido_phase` gate, the timestamp-ordering check, the
zero-amount check, the construction of the pool record, then the transfer
of `total_native_tokens` from the creator to the pool's native vault.
(The source name starts with a word this development cannot use as an
identifier, hence the shortened name.) -/
def init_pool (now : Int) (s : InitState) (total_native_tokens : Nat)
    (start_ido_ts end_ido_ts withdraw_deposit_token_ts : Int) (bump : Nat)
    (authority redeemable_mint native_mint deposit_token_mint
      pool_native_key pool_deposit_token_key : Pubkey) :
    Except ProgramError (PoolAccount × InitState) :=
  match pre_ido_phase now start_ido_ts with
  | .error e => .error (.code e)
  | .ok () =>
    if ¬ (start_ido_ts < end_ido_ts ∧ end_ido_ts < withdraw_deposit_token_ts) then
      .error (.code .NonSequentialTimestamps)
    else if total_native_tokens = 0 then
      .error (.code .InvalidParameter)
    else
      let pool : PoolAccount :=
        { pool_authority := authority
          redeemable_mint := redeemable_mint
          native_mint := native_mint
          deposit_token_mint := deposit_token_mint
          pool_native := pool_native_key
          pool_deposit_token := pool_deposit_token_key
          total_native_tokens := total_native_tokens
          start_ido_ts := start_ido_ts
          end_ido_ts := end_ido_ts
          withdraw_deposit_token_ts := withdraw_deposit_token_ts
          bump := bump }
      match spl_transfer s.creator_native s.pool_native total_native_tokens with
      | .error e => .error (.token e)
      | .ok (c, p) => .ok (pool, { creator_native := c, pool_native := p })

/-- Balances read and written by the deposit-exchange instruction. -/
structure DepositAccounts where
  depositor_deposit_token : Nat
  pool_deposit_token : Nat
  depositor_redeemable : Nat
  redeemable_supply : Nat
deriving DecidableEq, Repr

/-- Embeds `exchange_deposit_token_for_redeemable` (lib.rs lines 56-95):
the `unrestricted_phase` gate, the zero-amount check, the explicit
low-balance check, the transfer of the amount into the pool's deposit
vault, then the 1:1 mint of redeemable tokens to the depositor. -/
def exchange_deposit_token_for_redeemable (now : Int) (pool : PoolAccount)
    (s : DepositAccounts) (amount : Nat) : Except ProgramError DepositAccounts :=
  match unrestricted_phase now pool with
  | .error e => .error (.code e)
  | .ok () =>
    if amount = 0 then .error (.code .InvalidParameter)
    else if s.depositor_deposit_token < amount then
      .error (.code .LowDepositToken)
    else
      match spl_transfer s.depositor_deposit_token s.pool_deposit_token amount with
      | .error e => .error (.token e)
      | .ok (d, p) =>
        match spl_mint_to s.redeemable_supply s.depositor_redeemable amount with
        | (supply, r) =>
          .ok { depositor_deposit_token := d
                pool_deposit_token := p
                depositor_redeemable := r
                redeemable_supply := supply }

/-- Balances read and written by the redemption instruction. -/
structure RedeemAccounts where
  depositor_redeemable : Nat
  redeemable_supply : Nat
  pool_native : Nat
  depositor_native : Nat
deriving DecidableEq, Repr

/-- Embeds `exchange_redeemable_for_native` (lib.rs lines 97-134): the
`ido_over` gate, the widened payout computation
`(balance as u128).checked_mul(vault).unwrap().checked_div(supply).unwrap()`,
the burn of the depositor's entire redeemable balance, then the transfer of
`native_amount as u64` from the pool's native vault to the depositor.  The
two `unwrap`s panic when the checked operation yields `None`; the panic is
the outer `none`.  The `as u64` cast truncates, hence the `% U64_MOD`. -/
def exchange_redeemable_for_native (now : Int) (pool : PoolAccount)
    (s : RedeemAccounts) : Option (Except ProgramError RedeemAccounts) :=
  match ido_over now pool with
  | .error e => some (.error (.code e))
  | .ok () =>
    match checked_mul_u128 s.depositor_redeemable s.pool_native with
    | none => none
    | some prod =>
      match checked_div_u128 prod s.redeemable_supply with
      | none => none
      | some native_amount =>
        match spl_burn s.redeemable_supply s.depositor_redeemable
            s.depositor_redeemable with
        | .error e => some (.error (.token e))
        | .ok (supply, r) =>
          match spl_transfer s.pool_native s.depositor_native
              (native_amount % U64_MOD) with
          | .error e => some (.error (.token e))
          | .ok (p, d) =>
            some (.ok { depositor_redeemable := r
                        redeemable_supply := supply
                        pool_native := p
                        depositor_native := d })

/-- Balances read and written by the withdrawal instruction. -/
structure WithdrawAccounts where
  pool_deposit_token : Nat
  creator_deposit_token : Nat
deriving DecidableEq, Repr

/-- Embeds `withdraw_pool_deposit_token` (lib.rs lines 136-153): the
`can_withdraw_deposit_token` gate, then the transfer of the pool deposit
vault's entire current balance to the creator's deposit-token account. -/
def withdraw_pool_deposit_token (now : Int) (pool : PoolAccount)
    (s : WithdrawAccounts) : Except ProgramError WithdrawAccounts :=
  match can_withdraw_deposit_token now pool with
  | .error e => .error (.code e)
  | .ok () =>
    match spl_transfer s.pool_deposit_token s.creator_deposit_token
        s.pool_deposit_token with
    | .error e => .error (.token e)
    | .ok (p, c) => .ok { pool_deposit_token := p, creator_deposit_token := c }

/-- A concrete pool record used by the closed-form examples: window
100 < 200, withdrawal time 300, a thousand native tokens committed. -/
def closedPool : PoolAccount :=
  { pool_authority := 0
    redeemable_mint := 1
    native_mint := 2
    deposit_token_mint := 3
    pool_native := 4
    pool_deposit_token := 5
    total_native_tokens := 1000
    start_ido_ts := 100
    end_ido_ts := 200
    withdraw_deposit_token_ts := 300
    bump := 0 }

/-! ## Helper lemmas -/

/-- The floor payout never exceeds the vault balance when the redeemed
balance does not exceed the total claim supply. -/
theorem payout_le_vault (bal vault supply : Nat) (hbal : bal ≤ supply)
    (hsupply : 0 < supply) : bal * vault / supply ≤ vault := by
  calc bal * vault / supply ≤ supply * vault / supply :=
        Nat.div_le_div_right (Nat.mul_le_mul_right vault hbal)
    _ = vault := Nat.mul_div_cancel_left vault hsupply

/-- The product of two 64-bit balances stays below the 128-bit modulus. -/
theorem mul_lt_u128 (a b : Nat) (ha : a < U64_MOD) (hb : b < U64_MOD) :
    a * b < U128_MOD := by
  calc a * b < U64_MOD * U64_MOD :=
        mul_lt_mul'' ha hb (Nat.zero_le a) (Nat.zero_le b)
    _ = U128_MOD := by norm_num [U64_MOD, U128_MOD]

/-- Full evaluation of a successful redemption: in the Closed phase, with a
nonzero claim supply, the ledger invariant that a single balance never
exceeds the supply, and 64-bit balances, every step succeeds and the
resulting balances are exactly as computed from the pre-call state. -/
theorem redeem_success (now : Int) (pool : PoolAccount) (s : RedeemAccounts)
    (hphase : pool.end_ido_ts < now)
    (hsupply : 0 < s.redeemable_supply)
    (hbal : s.depositor_redeemable ≤ s.redeemable_supply)
    (hb64 : s.depositor_redeemable < U64_MOD)
    (hv64 : s.pool_native < U64_MOD) :
    exchange_redeemable_for_native now pool s =
      some (.ok
        { depositor_redeemable := 0
          redeemable_supply := s.redeemable_supply - s.depositor_redeemable
          pool_native := s.pool_native -
            s.depositor_redeemable * s.pool_native / s.redeemable_supply
          depositor_native := s.depositor_native +
            s.depositor_redeemable * s.pool_native / s.redeemable_supply }) := by
  have hmul : s.depositor_redeemable * s.pool_native < U128_MOD :=
    mul_lt_u128 _ _ hb64 hv64
  have hle : s.depositor_redeemable * s.pool_native / s.redeemable_supply ≤
      s.pool_native := payout_le_vault _ _ _ hbal hsupply
  have hmod : s.depositor_redeemable * s.pool_native / s.redeemable_supply %
      U64_MOD = s.depositor_redeemable * s.pool_native / s.redeemable_supply :=
    Nat.mod_eq_of_lt (lt_of_le_of_lt hle hv64)
  simp only [exchange_redeemable_for_native, ido_over, checked_mul_u128,
    checked_div_u128, spl_burn, spl_transfer, if_neg (not_not_intro hphase),
    if_pos hmul, if_neg (Nat.pos_iff_ne_zero.mp hsupply),
    if_neg (Nat.lt_irrefl s.depositor_redeemable), hmod,
    if_neg (Nat.not_lt.mpr hle), Nat.sub_self]

/-! ## Claim theorems -/

/-- Claim C1: in the Closed phase with a zero claim-token total supply, the
source performs no division (the checked division yields `None`) but then
panics on `unwrap` — the transaction aborts with no error code from the
program's enum, which has no "nothing to redeem" variant.  Evaluating the
embedded handler at the failing input returns the panic marker `none`
rather than any explicit rejection. -/
theorem c1_zero_supply_redemption_panics :
    exchange_redeemable_for_native 250 closedPool
      { depositor_redeemable := 0, redeemable_supply := 0,
        pool_native := 1000, depositor_native := 0 } = none := rfl

/-- Claim C2: for every redemption in the Closed phase (now strictly after
the IDO end) with a positive claim supply, the native payout is the floor
of balance * vault / supply computed from the pre-call balances; the
participant's claim balance becomes 0 (the whole balance is burned, which
also lowers the supply by that balance) and the pool's native vault
decreases by exactly the payout.  The last two hypotheses are the token
ledger's invariants: a single balance never exceeds the total supply, and
balances are 64-bit. -/
theorem c2_closed_redemption_payout (now : Int) (pool : PoolAccount)
    (s : RedeemAccounts)
    (hphase : pool.end_ido_ts < now)
    (hsupply : 0 < s.redeemable_supply)
    (hbal : s.depositor_redeemable ≤ s.redeemable_supply)
    (hb64 : s.depositor_redeemable < U64_MOD)
    (hv64 : s.pool_native < U64_MOD) :
    exchange_redeemable_for_native now pool s =
      some (.ok
        { depositor_redeemable := 0
          redeemable_supply := s.redeemable_supply - s.depositor_redeemable
          pool_native := s.pool_native -
            s.depositor_redeemable * s.pool_native / s.redeemable_supply
          depositor_native := s.depositor_native +
            s.depositor_redeemable * s.pool_native / s.redeemable_supply }) :=
  redeem_success now pool s hphase hsupply hbal hb64 hv64

/-- Witness for C2: a concrete Closed-phase redemption of a balance of 30
against supply 100 and vault 100 pays exactly 30. -/
theorem c2_closed_redemption_payout_witness :
    exchange_redeemable_for_native 250 closedPool
      { depositor_redeemable := 30, redeemable_supply := 100,
        pool_native := 100, depositor_native := 0 } =
      some (.ok { depositor_redeemable := 0, redeemable_supply := 70,
                  pool_native := 70, depositor_native := 30 }) := by
  simpa using c2_closed_redemption_payout 250 closedPool
    ⟨30, 100, 100, 0⟩ (by decide) (by decide) (by decide)
    (by norm_num [U64_MOD]) (by norm_num [U64_MOD])

/-- Claim C3: every deposit-exchange in the Open phase with a nonzero
amount covered by the depositor's deposit-token balance succeeds; the
depositor's claim balance rises by exactly the amount and the deposit-token
balance falls by exactly the amount (the pool vault and the claim supply
rise by the same amount: a fixed 1:1 exchange with no rounding). -/
theorem c3_open_deposit_one_to_one (now : Int) (pool : PoolAccount)
    (s : DepositAccounts) (amount : Nat)
    (hstart : pool.start_ido_ts < now) (hend : now < pool.end_ido_ts)
    (hamt : amount ≠ 0) (hbal : amount ≤ s.depositor_deposit_token) :
    exchange_deposit_token_for_redeemable now pool s amount =
      .ok { depositor_deposit_token := s.depositor_deposit_token - amount
            pool_deposit_token := s.pool_deposit_token + amount
            depositor_redeemable := s.depositor_redeemable + amount
            redeemable_supply := s.redeemable_supply + amount } := by
  have hg : ¬ ¬ (pool.start_ido_ts < now ∧ pool.end_ido_ts > now) :=
    not_not_intro ⟨hstart, hend⟩
  simp only [exchange_deposit_token_for_redeemable, unrestricted_phase,
    if_neg hg, if_neg hamt, if_neg (Nat.not_lt.mpr hbal), spl_transfer,
    spl_mint_to]

/-- Witness for C3: a concrete Open-phase deposit of 500 moves 500 deposit
tokens into the pool vault and mints 500 claim tokens. -/
theorem c3_open_deposit_one_to_one_witness :
    exchange_deposit_token_for_redeemable 150 closedPool
      { depositor_deposit_token := 800, pool_deposit_token := 0,
        depositor_redeemable := 0, redeemable_supply := 0 } 500 =
      .ok { depositor_deposit_token := 300, pool_deposit_token := 500,
            depositor_redeemable := 500, redeemable_supply := 500 } := by
  simpa using c3_open_deposit_one_to_one 150 closedPool
    ⟨800, 0, 0, 0⟩ 500 (by decide) (by decide) (by decide) (by decide)

/-- Claim C4: pool creation in the Setup phase with timestamps that are not
strictly increasing fails with the NonSequentialTimestamps error whatever
the committed amount (the ordering check precedes the amount check), and
any successfully created pool record carries strictly increasing
timestamps. -/
theorem c4_nonsequential_timestamps_rejected (now : Int) (s : InitState)
    (total : Nat) (sts ets wts : Int) (bump : Nat)
    (a b c d e f : Pubkey) (hsetup : now < sts) :
    (¬ (sts < ets ∧ ets < wts) →
      init_pool now s total sts ets wts bump a b c d e f =
        .error (.code .NonSequentialTimestamps)) ∧
    (∀ pool s2, init_pool now s total sts ets wts bump a b c d e f =
        .ok (pool, s2) →
      pool.start_ido_ts < pool.end_ido_ts ∧
        pool.end_ido_ts < pool.withdraw_deposit_token_ts) := by
  have hgate : ¬ ¬ (now < sts) := not_not_intro hsetup
  constructor
  · intro hno
    simp only [init_pool, pre_ido_phase, if_neg hgate, if_pos hno]
  · intro pool s2 heq
    by_cases hord : sts < ets ∧ ets < wts
    · simp only [init_pool, pre_ido_phase, spl_transfer, if_neg hgate,
        if_neg (not_not_intro hord)] at heq
      split at heq
      · exact Except.noConfusion heq
      · split at heq
        · exact Except.noConfusion heq
        · injection heq with h
          injection h with hpool hs
          subst hpool
          exact hord
    · simp only [init_pool, pre_ido_phase, if_neg hgate, if_pos hord] at heq
      exact Except.noConfusion heq

/-- Witness for C4: creation at time 50 with equal start and end timestamps
fails with the NonSequentialTimestamps error although the amount is 5. -/
theorem c4_nonsequential_timestamps_rejected_witness :
    init_pool 50 ⟨1000, 0⟩ 5 100 100 300 0 0 0 0 0 0 0 =
      .error (.code .NonSequentialTimestamps) :=
  (c4_nonsequential_timestamps_rejected 50 ⟨1000, 0⟩ 5 100 100 300 0
    0 0 0 0 0 0 (by decide)).1 (by decide)

/-- Claim C5: pool creation in the Setup phase with strictly increasing
timestamps and a zero native amount fails with the InvalidParameter error;
the error result carries no state, so the transfer step is never reached
and the creator's and the pool's balances are unchanged (the error is a
program code, not a token-ledger error). -/
theorem c5_zero_native_amount_rejected (now : Int) (s : InitState)
    (sts ets wts : Int) (bump : Nat) (a b c d e f : Pubkey)
    (hsetup : now < sts) (hord : sts < ets ∧ ets < wts) :
    init_pool now s 0 sts ets wts bump a b c d e f =
      .error (.code .InvalidParameter) := by
  simp only [init_pool, pre_ido_phase, if_neg (not_not_intro hsetup),
    if_neg (not_not_intro hord), if_true]

/-- Witness for C5: creation at time 50 with ordered timestamps and zero
amount fails with the InvalidParameter error. -/
theorem c5_zero_native_amount_rejected_witness :
    init_pool 50 ⟨1000, 0⟩ 0 100 200 300 0 0 0 0 0 0 0 =
      .error (.code .InvalidParameter) :=
  c5_zero_native_amount_rejected 50 ⟨1000, 0⟩ 100 200 300 0
    0 0 0 0 0 0 (by decide) (by decide)

/-- Claim C6: any deposit-exchange attempted strictly before the IDO start
or strictly after the IDO end fails with the WrongInvestingTime gate error;
the error result carries no state, so every balance is unchanged. -/
theorem c6_deposit_outside_window_rejected (now : Int) (pool : PoolAccount)
    (s : DepositAccounts) (amount : Nat)
    (h : now < pool.start_ido_ts ∨ pool.end_ido_ts < now) :
    exchange_deposit_token_for_redeemable now pool s amount =
      .error (.code .WrongInvestingTime) := by
  have hgate : ¬ (pool.start_ido_ts < now ∧ pool.end_ido_ts > now) := by
    omega
  simp only [exchange_deposit_token_for_redeemable, unrestricted_phase,
    if_pos hgate]

/-- Witness for C6: a deposit attempted at time 250, after the IDO end 200,
fails with the WrongInvestingTime error. -/
theorem c6_deposit_outside_window_rejected_witness :
    exchange_deposit_token_for_redeemable 250 closedPool
      { depositor_deposit_token := 800, pool_deposit_token := 0,
        depositor_redeemable := 0, redeemable_supply := 0 } 500 =
      .error (.code .WrongInvestingTime) :=
  c6_deposit_outside_window_rejected 250 closedPool
    ⟨800, 0, 0, 0⟩ 500 (by decide)

/-- Claim C7: with two participants holding claim balances 30 and 70, claim
supply 100 and native vault 100, participant A redeems 30, leaving vault 70
and supply 70, and participant B then redeems 70, leaving the vault at 0:
the distributed amounts 30 and 70 add back up to the original 100 with no
truncation loss. -/
theorem c7_two_participant_full_distribution :
    (exchange_redeemable_for_native 250 closedPool
        { depositor_redeemable := 30, redeemable_supply := 100,
          pool_native := 100, depositor_native := 0 } =
      some (.ok { depositor_redeemable := 0, redeemable_supply := 70,
                  pool_native := 70, depositor_native := 30 })) ∧
    (exchange_redeemable_for_native 250 closedPool
        { depositor_redeemable := 70, redeemable_supply := 70,
          pool_native := 70, depositor_native := 0 } =
      some (.ok { depositor_redeemable := 0, redeemable_supply := 0,
                  pool_native := 0, depositor_native := 70 })) ∧
    30 + 70 = closedPool.total_native_tokens - 900 :=
  ⟨rfl, rfl, rfl⟩

/-- Claim C8: withdrawal at or before the withdrawal timestamp fails with
the CannotWithdrawYet gate error and changes no balance; strictly after it,
the pool's entire current deposit-vault balance moves to the creator's
deposit-token account and the vault becomes 0 (a legal no-op when the
balance is already 0). -/
theorem c8_withdraw_gate_and_full_transfer (now : Int) (pool : PoolAccount)
    (s : WithdrawAccounts) :
    (now ≤ pool.withdraw_deposit_token_ts →
      withdraw_pool_deposit_token now pool s =
        .error (.code .CannotWithdrawYet)) ∧
    (pool.withdraw_deposit_token_ts < now →
      withdraw_pool_deposit_token now pool s =
        .ok { pool_deposit_token := 0
              creator_deposit_token :=
                s.creator_deposit_token + s.pool_deposit_token }) := by
  constructor
  · intro h
    simp only [withdraw_pool_deposit_token, can_withdraw_deposit_token,
      if_pos (not_lt.mpr h)]
  · intro h
    simp only [withdraw_pool_deposit_token, can_withdraw_deposit_token,
      if_neg (not_not_intro h), spl_transfer,
      if_neg (Nat.lt_irrefl s.pool_deposit_token), Nat.sub_self]

/-- Witness for C8: at time 350, after the withdrawal timestamp 300, a
vault of 500 moves entirely to the creator and the vault is left at 0. -/
theorem c8_withdraw_gate_and_full_transfer_witness :
    withdraw_pool_deposit_token 350 closedPool ⟨500, 0⟩ =
      .ok ⟨0, 500⟩ := by
  simpa using (c8_withdraw_gate_and_full_transfer 350 closedPool
    ⟨500, 0⟩).2 (by decide)

/-- Claim C9: for every pair of 64-bit inputs — the participant claim
balance and the pool native vault balance as read by the redemption
handler — the widening multiplication in 128 bits never overflows, so the
checked multiplication yields the exact product and the following unwrap
never panics. -/
theorem c9_widening_mul_never_overflows (s : RedeemAccounts)
    (hb : s.depositor_redeemable < U64_MOD)
    (hv : s.pool_native < U64_MOD) :
    checked_mul_u128 s.depositor_redeemable s.pool_native =
      some (s.depositor_redeemable * s.pool_native) := by
  simp only [checked_mul_u128, if_pos (mul_lt_u128 _ _ hb hv)]

/-- Witness for C9: the checked multiplication at the largest 64-bit
balances yields the exact product. -/
theorem c9_widening_mul_never_overflows_witness :
    checked_mul_u128 (2 ^ 64 - 1) (2 ^ 64 - 1) =
      some ((2 ^ 64 - 1) * (2 ^ 64 - 1)) :=
  c9_widening_mul_never_overflows
    ⟨2 ^ 64 - 1, 0, 2 ^ 64 - 1, 0⟩
    (by norm_num [U64_MOD]) (by norm_num [U64_MOD])

/-- Claim C10: under the ledger invariant that the participant claim
balance is at most the claim supply and the supply is nonzero, the floor
payout never exceeds the pool's native vault balance; hence it fits in 64
bits (the cast truncation is the identity on it) and the vault-to-
participant transfer — and with it the whole Closed-phase redemption —
succeeds. -/
theorem c10_payout_within_vault (now : Int) (pool : PoolAccount)
    (s : RedeemAccounts)
    (hphase : pool.end_ido_ts < now)
    (hsupply : 0 < s.redeemable_supply)
    (hbal : s.depositor_redeemable ≤ s.redeemable_supply)
    (hb64 : s.depositor_redeemable < U64_MOD)
    (hv64 : s.pool_native < U64_MOD) :
    s.depositor_redeemable * s.pool_native / s.redeemable_supply ≤
      s.pool_native ∧
    s.depositor_redeemable * s.pool_native / s.redeemable_supply % U64_MOD =
      s.depositor_redeemable * s.pool_native / s.redeemable_supply ∧
    ∃ s2, exchange_redeemable_for_native now pool s = some (.ok s2) := by
  have hle := payout_le_vault s.depositor_redeemable s.pool_native
    s.redeemable_supply hbal hsupply
  exact ⟨hle, Nat.mod_eq_of_lt (lt_of_le_of_lt hle hv64),
    ⟨_, redeem_success now pool s hphase hsupply hbal hb64 hv64⟩⟩

/-- Witness for C10: the concrete redemption of balance 70 against supply
70 and vault 70 pays at most the vault, casts losslessly, and succeeds. -/
theorem c10_payout_within_vault_witness :
    (70 : Nat) * 70 / 70 ≤ 70 ∧
    (70 : Nat) * 70 / 70 % U64_MOD = 70 * 70 / 70 ∧
    ∃ s2, exchange_redeemable_for_native 250 closedPool
      { depositor_redeemable := 70, redeemable_supply := 70,
        pool_native := 70, depositor_native := 0 } = some (.ok s2) :=
  c10_payout_within_vault 250 closedPool ⟨70, 70, 70, 0⟩
    (by decide) (by decide) (by decide)
    (by norm_num [U64_MOD]) (by norm_num [U64_MOD])

end IdoProgram
